import Mathlib

/-!
Shallow embedding of the network-rail VSTP integration core:
the service classifier (service_classifier.py) and the VSTP schedule
manager (vstp_manager.py).  Python dictionaries are modelled as
association lists with insertion-order update semantics, optional
string-valued dictionary entries as plain strings where the source only
ever tests truthiness, and the anchored regular expressions of the
classifier as explicit character-level predicates (ASCII reading of
digit and word classes).
-/

/-- Association-list lookup, modelling Python dictionary access. -/
def lookupA {α : Type} (k : String) : List (String × α) → Option α
  | [] => none
  | (k', v) :: t => if k' = k then some v else lookupA k t

/-- Association-list insert-or-replace, modelling Python dictionary
assignment: an existing key keeps its position, a new key is appended. -/
def upsertA {α : Type} (k : String) (v : α) : List (String × α) → List (String × α)
  | [] => [(k, v)]
  | (k', v') :: t => if k' = k then (k, v) :: t else (k', v') :: upsertA k v t

/-- Association-list removal, modelling Python dictionary pop. -/
def popA {α : Type} (k : String) : List (String × α) → List (String × α)
  | [] => []
  | (k', v') :: t => if k' = k then t else (k', v') :: popA k t

/-- Whether the first character list begins with the second one. -/
def charsStartWith : List Char → List Char → Bool
  | _, [] => true
  | [], _ :: _ => false
  | a :: as, b :: bs => a == b && charsStartWith as bs

/-- Whether the second character list occurs contiguously in the first. -/
def charsHaveSub : List Char → List Char → Bool
  | [], needle => needle.isEmpty
  | a :: as, needle => charsStartWith (a :: as) needle || charsHaveSub as needle

/-- Substring test, modelling the Python expression needle in hay. -/
def strHasSub (hay needle : String) : Bool :=
  charsHaveSub hay.toList needle.toList

/-- Lower-casing a string character by character, modelling str.lower. -/
def lowerStr (s : String) : String :=
  String.mk (s.toList.map Char.toLower)

/-- Replace every underscore by a space, modelling the source expression
that rewrites category names before title-casing them. -/
def replaceUnderscoreSp (s : String) : String :=
  String.mk (s.toList.map (fun c => if c == '_' then ' ' else c))

/-- Title-casing helper: the flag records whether the previous character
was alphabetic, matching the Python str.title boundary rule. -/
def pyTitleChars : Bool → List Char → List Char
  | _, [] => []
  | prevAlpha, c :: rest =>
    if c.isAlpha then
      (if prevAlpha then c.toLower else c.toUpper) :: pyTitleChars true rest
    else
      c :: pyTitleChars false rest

/-- Python str.title over the ASCII alphabet. -/
def pyTitle (s : String) : String :=
  String.mk (pyTitleChars false s.toList)

/-- One stop or pass of a schedule (entries of schedule_location).
Absent optional string entries are modelled as the empty string, which
is how the source reads them (dict.get with an empty-string default or
a truthiness test). -/
structure ScheduleLocation where
  tiploc_code : String := ""
  arrival : String := ""
  departure : String := ""
  platform : String := ""
  train_identity : String := ""
  deriving DecidableEq, Repr

/-- A JsonScheduleV1 payload as the source reads it.  String fields the
source accesses with an empty-string default (or a truthiness test) are
plain strings with the empty string standing for an absent entry;
transaction_type keeps an explicit option because its absence defaults
to Create rather than to an empty string. -/
structure Schedule where
  CIF_train_uid : String := ""
  schedule_start_date : String := ""
  schedule_end_date : String := ""
  CIF_train_category : String := ""
  CIF_power_type : String := ""
  train_class : String := ""
  operating_characteristics : String := ""
  schedule_location : List ScheduleLocation := []
  transaction_type : Option String := none
  deriving DecidableEq, Repr

/-- The classification record produced by classify_service. -/
structure ClassificationResult where
  service_type : String
  service_category : String
  description : String
  is_freight : Bool
  is_passenger : Bool
  is_special : Bool
  special_types : List String
  alert_worthy : Bool
  deriving DecidableEq, Repr

/-- CATEGORY_TYPES table of service_classifier.py. -/
def CATEGORY_TYPES : List (String × String) :=
  [("OO", "ordinary_passenger"), ("OW", "ordinary_passenger"),
   ("XC", "express_passenger"), ("XX", "express_passenger"),
   ("XZ", "sleeper"), ("BR", "bus_replacement"), ("BS", "bus_wtt"),
   ("EE", "empty_coaching_stock"), ("EL", "empty_coaching_stock"),
   ("ES", "empty_coaching_stock"), ("JJ", "postal"), ("PM", "postal"),
   ("PP", "parcels"), ("PV", "parcels"), ("XY", "freight_special")]

/-- FREIGHT_CATEGORIES table of service_classifier.py. -/
def FREIGHT_CATEGORIES : List (String × String) :=
  [("B", "freight_automotive"), ("E", "freight_empty"),
   ("F", "freight_freightliner"), ("G", "freight_general"),
   ("H", "freight_aggregates"), ("J", "freight_freight_trip"),
   ("M", "freight_intermodal"), ("Q", "freight_other"),
   ("R", "freight_infrastructure"), ("S", "freight_steel")]

/-- PULLMAN_KEYWORDS list of service_classifier.py. -/
def PULLMAN_KEYWORDS : List String :=
  ["pullman", "orient express", "luxury", "belmond"]

/-- An ASCII word character, modelling the regex class of letters,
digits and underscore. -/
def word_char (c : Char) : Bool :=
  c.isAlphanum || c == '_'

/-- ROYAL_TRAIN_HEADCODE_PATTERN: the anchored literal 1X99. -/
def royal_train_headcode_match (h : String) : Bool :=
  h == "1X99"

/-- RHTT_HEADCODE_PATTERN: 3H or 3Y followed by two digits. -/
def rhtt_headcode_match (h : String) : Bool :=
  match h.toList with
  | [a, b, c, d] => a == '3' && (b == 'H' || b == 'Y') && c.isDigit && d.isDigit
  | _ => false

/-- STEAM_HEADCODE_PATTERN: 1Z followed by two digits. -/
def steam_headcode_match (h : String) : Bool :=
  match h.toList with
  | [a, b, c, d] => a == '1' && b == 'Z' && c.isDigit && d.isDigit
  | _ => false

/-- CHARTER_HEADCODE_PATTERN: 1Z followed by two digits (the source
declares this pattern separately from the steam pattern). -/
def charter_headcode_match (h : String) : Bool :=
  match h.toList with
  | [a, b, c, d] => a == '1' && b == 'Z' && c.isDigit && d.isDigit
  | _ => false

/-- FREIGHT_HEADCODE_PATTERN: 0, 4, 6 or 7 followed by three word
characters. -/
def freight_headcode_match (h : String) : Bool :=
  match h.toList with
  | [a, b, c, d] =>
    (a == '0' || a == '4' || a == '6' || a == '7') && word_char b && word_char c && word_char d
  | _ => false

/-- ECS_HEADCODE_PATTERN: 5 followed by three word characters. -/
def ecs_headcode_match (h : String) : Bool :=
  match h.toList with
  | [a, b, c, d] => a == '5' && word_char b && word_char c && word_char d
  | _ => false

/-- Final fallback test of classify_by_headcode: a four-character
headcode whose first character is 1, 2 or 3. -/
def passenger_headcode_fallback_match (h : String) : Bool :=
  match h.toList with
  | [a, _, _, _] => a == '1' || a == '2' || a == '3'
  | _ => false

/-- detect_special_services of service_classifier.py: the ordered tag
detection over headcode patterns and structured attributes, with the
royal-train early return. -/
def detect_special_services (vstp_data : Option Schedule) (headcode : String) : List String :=
  if royal_train_headcode_match headcode then ["royal_train"]
  else
    let special := if rhtt_headcode_match headcode then ["rhtt"] else []
    let special :=
      match vstp_data with
      | some d =>
        if strHasSub d.operating_characteristics "R" && !(special.contains "rhtt") then
          special ++ ["rhtt"]
        else special
      | none => special
    let special :=
      if steam_headcode_match headcode then
        let special := special ++ ["charter"]
        match vstp_data with
        | some d =>
          if d.CIF_power_type = "HST" ∨ d.CIF_power_type = "STEAM" then
            special ++ ["steam"]
          else special
        | none => special
      else special
    let special :=
      match vstp_data with
      | some d =>
        let special :=
          if d.schedule_location.any
              (fun loc => PULLMAN_KEYWORDS.any (fun k => strHasSub (lowerStr loc.train_identity) k)) then
            special ++ ["pullman"]
          else special
        if PULLMAN_KEYWORDS.any (fun k => strHasSub (lowerStr d.train_class) k) then
          special ++ ["pullman"]
        else special
      | none => special
    if charter_headcode_match headcode && !(special.contains "charter") then
      special ++ ["charter"]
    else special

/-- The special-types block of classify_service: record the detected
tags and choose the primary type by the fixed tag priority. -/
def applySpecialTypes (special : List String) (r : ClassificationResult) : ClassificationResult :=
  if special.isEmpty then r
  else
    let r := { r with special_types := special, is_special := true, alert_worthy := true }
    if special.contains "royal_train" then
      { r with service_type := "royal_train", service_category := "royal_train",
               description := "Royal Train" }
    else if special.contains "steam" then
      { r with service_type := "charter", service_category := "steam_charter",
               description := "Steam Charter Service", is_passenger := true }
    else if special.contains "rhtt" then
      { r with service_type := "infrastructure", service_category := "rhtt",
               description := "Rail Head Treatment Train" }
    else if special.contains "pullman" then
      { r with service_type := "passenger", service_category := "luxury_charter",
               description := "Pullman/Luxury Charter", is_passenger := true }
    else if special.contains "charter" then
      { r with service_type := "passenger", service_category := "charter",
               description := "Charter Service", is_passenger := true }
    else r

/-- The operating-characteristics check of classify_service: append an
rhtt tag when the string contains R and the tag is not yet present. -/
def applyOperRhtt (d : Schedule) (r : ClassificationResult) : ClassificationResult :=
  if strHasSub d.operating_characteristics "R" && !(r.special_types.contains "rhtt") then
    let r := { r with special_types := r.special_types ++ ["rhtt"],
                      is_special := true, alert_worthy := true }
    if r.service_type = "unknown" then
      { r with service_type := "infrastructure", service_category := "rhtt",
               description := "Rail Head Treatment Train" }
    else r
  else r

/-- The CATEGORY_TYPES block of classify_service. -/
def applyCategoryTypes (d : Schedule) (r : ClassificationResult) : ClassificationResult :=
  match lookupA d.CIF_train_category CATEGORY_TYPES with
  | none => r
  | some service_type =>
    if r.service_type = "unknown" then
      let r := { r with service_type := service_type,
                        service_category := d.CIF_train_category }
      if strHasSub service_type "passenger" then
        { r with is_passenger := true,
                 description := pyTitle (replaceUnderscoreSp service_type) }
      else if strHasSub service_type "empty_coaching_stock" then
        { r with description := "Empty Coaching Stock" }
      else if strHasSub service_type "bus" then
        { r with is_passenger := true, description := "Bus Replacement Service" }
      else if service_type = "postal" ∨ service_type = "parcels" then
        { r with description := pyTitle service_type }
      else if service_type = "freight_special" then
        { r with is_freight := true, is_special := true, alert_worthy := true,
                 description := "Special Freight Service" }
      else r
    else r

/-- The FREIGHT_CATEGORIES block of classify_service. -/
def applyFreightCategories (d : Schedule) (r : ClassificationResult) : ClassificationResult :=
  match lookupA d.CIF_train_category FREIGHT_CATEGORIES with
  | none => r
  | some fc =>
    if r.service_type = "unknown" then
      { r with is_freight := true, service_type := "freight", service_category := fc,
               description := pyTitle (replaceUnderscoreSp fc), alert_worthy := true }
    else r

/-- classify_by_headcode of service_classifier.py (the source names it
with a leading underscore): headcode-only fallback classification. -/
def classify_by_headcode (headcode : String) : ClassificationResult :=
  let result : ClassificationResult :=
    { service_type := "unknown", service_category := "unknown",
      description := "Train " ++ headcode, is_freight := false, is_passenger := false,
      is_special := false, special_types := [], alert_worthy := false }
  if freight_headcode_match headcode then
    { result with service_type := "freight", service_category := "freight_unclassified",
                  description := "Freight Service", is_freight := true, alert_worthy := true }
  else if ecs_headcode_match headcode then
    { result with service_type := "empty_coaching_stock", service_category := "ecs",
                  description := "Empty Coaching Stock" }
  else if charter_headcode_match headcode then
    { result with service_type := "passenger", service_category := "charter",
                  description := "Charter Service", is_passenger := true,
                  is_special := true, alert_worthy := true }
  else if passenger_headcode_fallback_match headcode then
    { result with service_type := "passenger", service_category := "passenger_unclassified",
                  description := "Passenger Service", is_passenger := true }
  else result

/-- classify_service of service_classifier.py.  The headcode fallback
updates every field of the record except special_types, which the
fallback dictionary does not carry. -/
def classify_service (vstp_data : Option Schedule) (headcode : String) : ClassificationResult :=
  let r := applySpecialTypes (detect_special_services vstp_data headcode)
    { service_type := "unknown", service_category := "unknown",
      description := "Unknown service", is_freight := false, is_passenger := false,
      is_special := false, special_types := [], alert_worthy := false }
  let r :=
    match vstp_data with
    | none => r
    | some d => applyFreightCategories d (applyCategoryTypes d (applyOperRhtt d r))
  if r.service_type = "unknown" then
    { classify_by_headcode headcode with special_types := r.special_types }
  else r

/-- should_alert_for_service of service_classifier.py: the alert
configuration is an association list of flag names to booleans, the
empty list standing for a missing or empty configuration. -/
def should_alert_for_service (classification : ClassificationResult)
    (alert_config : List (String × Bool)) : Bool × Option String :=
  if alert_config.isEmpty then (false, none)
  else
    match classification.special_types.find? (fun t => (lookupA t alert_config).getD false) with
    | some t => (true, some ("Special service: " ++ t))
    | none =>
      if classification.is_freight && (lookupA "freight" alert_config).getD false then
        (true, some "Freight service")
      else if classification.is_special && (lookupA "charter" alert_config).getD false then
        (true, some "Special/Charter service")
      else
        (false, none)

/-- A calendar date as compared by Python date objects. -/
structure YMD where
  y : Nat
  m : Nat
  d : Nat
  deriving DecidableEq, Repr

/-- Date comparison, modelling the lexicographic order of Python dates. -/
def YMD.le (a b : YMD) : Bool :=
  decide (a.y < b.y ∨ (a.y = b.y ∧ (a.m < b.m ∨ (a.m = b.m ∧ a.d ≤ b.d))))

/-- Gregorian leap-year rule used by the Python date constructor. -/
def isLeapYear (y : Nat) : Bool :=
  (y % 4 == 0 && y % 100 != 0) || y % 400 == 0

/-- Days in a month, as validated by the Python date constructor. -/
def daysInMonth (y m : Nat) : Nat :=
  if m = 2 then (if isLeapYear y then 29 else 28)
  else if m = 4 ∨ m = 6 ∨ m = 9 ∨ m = 11 then 30
  else 31

/-- Split a character list at dashes. -/
def splitDashAux : List Char → List Char → List (List Char)
  | acc, [] => [acc.reverse]
  | acc, c :: rest =>
    if c == '-' then acc.reverse :: splitDashAux [] rest
    else splitDashAux (c :: acc) rest

/-- Decimal value of a digit list. -/
def digitsToNat (cs : List Char) : Nat :=
  cs.foldl (fun n c => n * 10 + (c.toNat - 48)) 0

/-- strptime with the format YYYY-MM-DD followed by the date-object
validity checks: a four-digit year, a one- or two-digit month and day,
month and day ranges, and the per-month day bound.  Any other shape
raises in the source, which the caller turns into the fail-open result,
so it is modelled as a parse failure. -/
def parseDate (s : String) : Option YMD :=
  match splitDashAux [] s.toList with
  | [ys, ms, ds] =>
    if ys.length == 4 && ys.all Char.isDigit
        && decide (1 ≤ ms.length) && decide (ms.length ≤ 2) && ms.all Char.isDigit
        && decide (1 ≤ ds.length) && decide (ds.length ≤ 2) && ds.all Char.isDigit then
      let y := digitsToNat ys
      let m := digitsToNat ms
      let d := digitsToNat ds
      if 1 ≤ y ∧ 1 ≤ m ∧ m ≤ 12 ∧ 1 ≤ d ∧ d ≤ daysInMonth y m then
        some ⟨y, m, d⟩
      else none
    else none
  | _ => none

/-- A VSTP message: the optional JsonScheduleV1 payload. -/
structure VstpMessage where
  jsonScheduleV1 : Option Schedule
  deriving DecidableEq, Repr

/-- The mutable state of VstpManager: the two schedule indices and the
two counters. -/
structure VstpState where
  schedules_by_uid : List (String × Schedule)
  schedules_by_headcode : List (String × List Schedule)
  message_count : Nat
  schedule_count : Nat
  deriving DecidableEq, Repr

/-- The state of a freshly initialised VstpManager. -/
def initialState : VstpState :=
  { schedules_by_uid := [], schedules_by_headcode := [],
    message_count := 0, schedule_count := 0 }

/-- is_schedule_valid_today of vstp_manager.py, with the clock passed
explicitly: missing dates and parse failures are fail-open. -/
def isScheduleValidToday (today : YMD) (sched : Schedule) : Bool :=
  if sched.schedule_start_date = "" ∨ sched.schedule_end_date = "" then true
  else
    match parseDate sched.schedule_start_date, parseDate sched.schedule_end_date with
    | some start_date, some end_date => YMD.le start_date today && YMD.le today end_date
    | _, _ => true

/-- extract_headcodes of vstp_manager.py: the non-empty train
identities of the locations, collected into a set (modelled as a
duplicate-free list). -/
def extractHeadcodes (sched : Schedule) : List String :=
  (sched.schedule_location.filterMap
    (fun loc => if loc.train_identity = "" then none else some loc.train_identity)).dedup

/-- One iteration of the headcode loop of store_schedule: drop any
stale entry with the same train uid and append the fresh schedule. -/
def storeHeadcodeStep (uid : String) (sched : Schedule)
    (idx : List (String × List Schedule)) (h : String) : List (String × List Schedule) :=
  upsertA h ((((lookupA h idx).getD []).filter (fun s => s.CIF_train_uid != uid)) ++ [sched]) idx

/-- The headcode loop of store_schedule. -/
def storeHeadcodes (uid : String) (sched : Schedule) (hcs : List String)
    (idx : List (String × List Schedule)) : List (String × List Schedule) :=
  hcs.foldl (storeHeadcodeStep uid sched) idx

/-- store_schedule of vstp_manager.py. -/
def storeSchedule (today : YMD) (st : VstpState) (sched : Schedule) : VstpState :=
  if !(isScheduleValidToday today sched) then st
  else
    let train_uid := sched.CIF_train_uid
    let schedules_by_uid := upsertA train_uid sched st.schedules_by_uid
    let schedules_by_headcode :=
      storeHeadcodes train_uid sched (extractHeadcodes sched) st.schedules_by_headcode
    { st with schedules_by_uid := schedules_by_uid,
              schedules_by_headcode := schedules_by_headcode,
              schedule_count := schedules_by_uid.length }

/-- One iteration of the headcode loop of delete_schedule: strip the
deleted uid from the list and drop the key when the list empties. -/
def deleteHeadcodeStep (uid : String)
    (idx : List (String × List Schedule)) (h : String) : List (String × List Schedule) :=
  let schedules := ((lookupA h idx).getD []).filter (fun s => s.CIF_train_uid != uid)
  if schedules.isEmpty then popA h idx else upsertA h schedules idx

/-- delete_schedule of vstp_manager.py. -/
def deleteSchedule (st : VstpState) (train_uid : String) : VstpState :=
  match lookupA train_uid st.schedules_by_uid with
  | none => st
  | some sched =>
    let schedules_by_uid := popA train_uid st.schedules_by_uid
    let schedules_by_headcode :=
      (extractHeadcodes sched).foldl (deleteHeadcodeStep train_uid) st.schedules_by_headcode
    { st with schedules_by_uid := schedules_by_uid,
              schedules_by_headcode := schedules_by_headcode,
              schedule_count := schedules_by_uid.length }

/-- process_vstp_message of vstp_manager.py, with the clock passed
explicitly: count the message, drop payload-free and uid-free messages,
and dispatch on the transaction type (absent defaults to Create). -/
def processVstpMessage (today : YMD) (st : VstpState) (message : VstpMessage) : VstpState :=
  let st := { st with message_count := st.message_count + 1 }
  match message.jsonScheduleV1 with
  | none => st
  | some sched =>
    let transaction_type := sched.transaction_type.getD "Create"
    if sched.CIF_train_uid = "" then st
    else if transaction_type = "Delete" then deleteSchedule st sched.CIF_train_uid
    else if transaction_type = "Create" ∨ transaction_type = "Update" then
      storeSchedule today st sched
    else st

/-- get_schedule_for_uid of vstp_manager.py. -/
def getScheduleForUid (st : VstpState) (uid : String) : Option Schedule :=
  lookupA uid st.schedules_by_uid

/-- get_all_schedules_for_headcode of vstp_manager.py. -/
def getAllSchedulesForHeadcode (st : VstpState) (headcode : String) : List Schedule :=
  (lookupA headcode st.schedules_by_headcode).getD []

/-- get_schedule_for_headcode of vstp_manager.py: the first element of
the list for that headcode, if any. -/
def getScheduleForHeadcode (st : VstpState) (headcode : String) : Option Schedule :=
  match (lookupA headcode st.schedules_by_headcode).getD [] with
  | [] => none
  | s :: _ => some s

/-- Whether the optional structured attributes carry an R in their
operating-characteristics string (the trigger of the second rhtt check
inside classify_service). -/
def operating_chars_have_R : Option Schedule → Bool
  | none => false
  | some d => strHasSub d.operating_characteristics "R"

/-- Alert-configuration flag lookup with a false default. -/
def cfgFlag (alert_config : List (String × Bool)) (k : String) : Bool :=
  (lookupA k alert_config).getD false

/-- The tag scan as the spec words it: walk the special-type list in
order and fire on the first tag whose configuration flag is true. -/
def scanSpecialTags (alert_config : List (String × Bool)) : List String → Option String
  | [] => none
  | tag :: rest =>
    if cfgFlag alert_config tag then some ("Special service: " ++ tag)
    else scanSpecialTags alert_config rest

/-- The alert decision as the spec words it: no alert on a missing or
empty configuration, otherwise the ordered tag scan, then the freight
check, then the charter check. -/
def shouldAlertSpec (classification : ClassificationResult)
    (alert_config : List (String × Bool)) : Bool × Option String :=
  if alert_config = [] then (false, none)
  else
    match scanSpecialTags alert_config classification.special_types with
    | some reason => (true, some reason)
    | none =>
      if classification.is_freight && cfgFlag alert_config "freight" then
        (true, some "Freight service")
      else if classification.is_special && cfgFlag alert_config "charter" then
        (true, some "Special/Charter service")
      else (false, none)

/-- The index-consistency invariant claimed by the spec, as an
executable check: every schedule listed under a headcode key has its
uid in the primary index and that headcode among its own headcodes,
no secondary list is empty, and every headcode of every stored
schedule points back to that schedule. -/
def indicesConsistentB (st : VstpState) : Bool :=
  st.schedules_by_headcode.all (fun entry =>
    !entry.2.isEmpty &&
    entry.2.all (fun s =>
      (lookupA s.CIF_train_uid st.schedules_by_uid).isSome
        && (extractHeadcodes s).contains entry.1))
  && st.schedules_by_uid.all (fun entry =>
    (extractHeadcodes entry.2).all (fun h =>
      match lookupA h st.schedules_by_headcode with
      | some l => l.any (fun s => decide (s = entry.2))
      | none => false))

/-- Structured attributes whose operating characteristics contain R. -/
def opRSched : Schedule :=
  { operating_characteristics := "R" }

/-- Structured attributes carrying a luxury keyword both in the train
class and in a location identity. -/
def pullmanSched : Schedule :=
  { train_class := "Pullman",
    schedule_location := [{ train_identity := "Pullman Car" }] }

/-- A fixed processing day for the concrete store scenarios. -/
def day0 : YMD := ⟨2025, 1, 1⟩

/-- Create event: uid U with headcode 1A11 and no validity window. -/
def schedV1 : Schedule :=
  { CIF_train_uid := "U",
    schedule_location := [{ train_identity := "1A11" }],
    transaction_type := some "Create" }

/-- Update event: the same uid U, now with headcode 2B22 only. -/
def schedV2 : Schedule :=
  { CIF_train_uid := "U",
    schedule_location := [{ train_identity := "2B22" }],
    transaction_type := some "Update" }

/-- Delete event for uid U. -/
def schedDel : Schedule :=
  { CIF_train_uid := "U", transaction_type := some "Delete" }

/-- The store after create U at 1A11, update U to 2B22, delete U. -/
def stAfterUpdateDelete : VstpState :=
  processVstpMessage day0
    (processVstpMessage day0
      (processVstpMessage day0 initialState ⟨some schedV1⟩) ⟨some schedV2⟩)
    ⟨some schedDel⟩

/-- Schedule A for headcode 1A11, valid only on 2025-01-01. -/
def schedA : Schedule :=
  { CIF_train_uid := "A", schedule_start_date := "2025-01-01",
    schedule_end_date := "2025-01-01",
    schedule_location := [{ train_identity := "1A11" }],
    transaction_type := some "Create" }

/-- Schedule B for headcode 1A11, valid through 2025. -/
def schedB : Schedule :=
  { CIF_train_uid := "B", schedule_start_date := "2025-01-01",
    schedule_end_date := "2025-12-31",
    schedule_location := [{ train_identity := "1A11" }],
    transaction_type := some "Create" }

/-- The store after ingesting A then B on 2025-01-01. -/
def stHeadcodePair : VstpState :=
  processVstpMessage day0 (processVstpMessage day0 initialState ⟨some schedA⟩) ⟨some schedB⟩

/-- A later query day on which schedule A has expired. -/
def queryDay : YMD := ⟨2025, 6, 1⟩

/-- A create event whose validity window lies entirely in the future
relative to the witness processing day 2025-06-15. -/
def futureSched : Schedule :=
  { CIF_train_uid := "F", schedule_start_date := "2026-01-01",
    schedule_end_date := "2026-12-31",
    schedule_location := [{ train_identity := "1F99" }],
    transaction_type := some "Create" }

/-- A create event whose validity window straddles 2025-06-15. -/
def straddleSched : Schedule :=
  { CIF_train_uid := "V", schedule_start_date := "2025-01-01",
    schedule_end_date := "2025-12-31",
    schedule_location := [{ train_identity := "2V55" }],
    transaction_type := some "Create" }

/-- The witness processing day for the validity-gating claim. -/
def witnessDay : YMD := ⟨2025, 6, 15⟩

theorem lookupA_upsertA_self {α : Type} (k : String) (v : α) (l : List (String × α)) :
    lookupA k (upsertA k v l) = some v := by
  induction l with
  | nil => simp [upsertA, lookupA]
  | cons p t ih =>
    obtain ⟨k', v'⟩ := p
    by_cases hk : k' = k
    · simp [upsertA, hk, lookupA]
    · simp [upsertA, hk, lookupA, ih]

theorem lookupA_upsertA_ne {α : Type} {k k' : String} (hne : k' ≠ k) (v : α)
    (l : List (String × α)) :
    lookupA k (upsertA k' v l) = lookupA k l := by
  induction l with
  | nil => simp [upsertA, lookupA, hne]
  | cons p t ih =>
    obtain ⟨k'', v'⟩ := p
    by_cases hk : k'' = k'
    · subst hk
      simp [upsertA, lookupA, hne]
    · simp [upsertA, hk, lookupA, ih]

theorem upsertA_of_lookupA {α : Type} {k : String} {v : α} {l : List (String × α)}
    (h : lookupA k l = some v) : upsertA k v l = l := by
  induction l with
  | nil => simp [lookupA] at h
  | cons p t ih =>
    obtain ⟨k', v'⟩ := p
    by_cases hk : k' = k
    · subst hk
      simp [lookupA] at h
      simp [upsertA, h]
    · simp [lookupA, hk] at h
      simp [upsertA, hk, ih h]

theorem upsertA_upsertA {α : Type} (k : String) (v w : α) (l : List (String × α)) :
    upsertA k v (upsertA k w l) = upsertA k v l := by
  induction l with
  | nil => simp [upsertA]
  | cons p t ih =>
    obtain ⟨k', v'⟩ := p
    by_cases hk : k' = k
    · subst hk
      simp [upsertA]
    · simp [upsertA, hk, ih]

theorem storeHeadcodes_nil (uid : String) (sched : Schedule)
    (idx : List (String × List Schedule)) :
    storeHeadcodes uid sched [] idx = idx := rfl

theorem storeHeadcodes_cons (uid : String) (sched : Schedule) (h : String) (t : List String)
    (idx : List (String × List Schedule)) :
    storeHeadcodes uid sched (h :: t) idx
      = storeHeadcodes uid sched t (storeHeadcodeStep uid sched idx h) := rfl

theorem lookupA_storeHeadcodes_notmem (uid : String) (sched : Schedule) (h : String)
    (hcs : List String) :
    ∀ idx, h ∉ hcs →
      lookupA h (storeHeadcodes uid sched hcs idx) = lookupA h idx := by
  induction hcs with
  | nil => intro idx _; rfl
  | cons h' t ih =>
    intro idx hmem
    have h1 : h ≠ h' := fun e => hmem (e ▸ List.mem_cons_self h' t)
    have h2 : h ∉ t := fun e => hmem (List.mem_cons_of_mem h' e)
    rw [storeHeadcodes_cons, ih _ h2]
    exact lookupA_upsertA_ne (Ne.symm h1) _ _

theorem lookupA_storeHeadcodes_mem (uid : String) (sched : Schedule) (h : String)
    (hcs : List String) :
    ∀ idx, hcs.Nodup → h ∈ hcs →
      lookupA h (storeHeadcodes uid sched hcs idx)
        = some ((((lookupA h idx).getD []).filter (fun s => s.CIF_train_uid != uid)) ++ [sched]) := by
  induction hcs with
  | nil => intro idx _ hmem; cases hmem
  | cons h' t ih =>
    intro idx hnd hmem
    have hnd' := List.nodup_cons.mp hnd
    rcases List.mem_cons.mp hmem with h1 | h1
    · subst h1
      rw [storeHeadcodes_cons, lookupA_storeHeadcodes_notmem uid sched h t _ hnd'.1]
      unfold storeHeadcodeStep
      exact lookupA_upsertA_self _ _ _
    · have hne : h ≠ h' := fun e => hnd'.1 (e ▸ h1)
      rw [storeHeadcodes_cons, ih _ hnd'.2 h1]
      unfold storeHeadcodeStep
      rw [lookupA_upsertA_ne (Ne.symm hne)]

theorem storeHeadcodes_idem (uid : String) (sched : Schedule)
    (hud : sched.CIF_train_uid = uid) (hcs : List String) :
    ∀ idx, hcs.Nodup →
      storeHeadcodes uid sched hcs (storeHeadcodes uid sched hcs idx)
        = storeHeadcodes uid sched hcs idx := by
  induction hcs with
  | nil => intro idx _; rfl
  | cons h t ih =>
    intro idx hnd
    have hnd' := List.nodup_cons.mp hnd
    rw [storeHeadcodes_cons, storeHeadcodes_cons]
    set A := storeHeadcodeStep uid sched idx h with hA
    have hlook : lookupA h (storeHeadcodes uid sched t A)
        = some ((((lookupA h idx).getD []).filter (fun s => s.CIF_train_uid != uid)) ++ [sched]) := by
      rw [lookupA_storeHeadcodes_notmem uid sched h t _ hnd'.1, hA]
      unfold storeHeadcodeStep
      exact lookupA_upsertA_self _ _ _
    have hstep : storeHeadcodeStep uid sched (storeHeadcodes uid sched t A) h
        = storeHeadcodes uid sched t A := by
      unfold storeHeadcodeStep
      rw [hlook]
      have hfilt : (((((lookupA h idx).getD []).filter (fun s => s.CIF_train_uid != uid)) ++ [sched]).filter
            (fun s => s.CIF_train_uid != uid))
          = ((lookupA h idx).getD []).filter (fun s => s.CIF_train_uid != uid) := by
        rw [List.filter_append, List.filter_filter]
        simp [hud]
      rw [Option.getD_some, hfilt]
      exact upsertA_of_lookupA hlook
    rw [hstep]
    exact ih _ hnd'.2

theorem storeSchedule_byUid (today : YMD) (st : VstpState) (sched : Schedule) :
    (storeSchedule today st sched).schedules_by_uid
      = if isScheduleValidToday today sched then
          upsertA sched.CIF_train_uid sched st.schedules_by_uid
        else st.schedules_by_uid := by
  by_cases h : isScheduleValidToday today sched <;> simp [storeSchedule, h]

theorem storeSchedule_byHeadcode (today : YMD) (st : VstpState) (sched : Schedule) :
    (storeSchedule today st sched).schedules_by_headcode
      = if isScheduleValidToday today sched then
          storeHeadcodes sched.CIF_train_uid sched (extractHeadcodes sched)
            st.schedules_by_headcode
        else st.schedules_by_headcode := by
  by_cases h : isScheduleValidToday today sched <;> simp [storeSchedule, h]

theorem processVstpMessage_missing_uid (today : YMD) (st : VstpState) (message : VstpMessage)
    (sched : Schedule) (hmsg : message.jsonScheduleV1 = some sched)
    (huid : sched.CIF_train_uid = "") :
    processVstpMessage today st message = { st with message_count := st.message_count + 1 } := by
  simp [processVstpMessage, hmsg, huid]

theorem processVstpMessage_createUpdate (today : YMD) (st : VstpState) (sched : Schedule)
    (huid : sched.CIF_train_uid ≠ "")
    (htt : sched.transaction_type.getD "Create" = "Create"
        ∨ sched.transaction_type.getD "Create" = "Update") :
    processVstpMessage today st ⟨some sched⟩
      = storeSchedule today { st with message_count := st.message_count + 1 } sched := by
  rcases htt with h | h <;> simp [processVstpMessage, huid, h]

/-- C7: classifier determinism on the five fixed examples of the spec:
1X99 is a royal train (alert-worthy, sole tag), 3H07 is an rhtt
infrastructure service, category XX with headcode 1F42 is an express
passenger service, 6M94 is unclassified alert-worthy freight, and 9Z99
is unknown with description Train 9Z99. -/
theorem c7_classification_determinism :
    (classify_service none "1X99").service_type = "royal_train"
    ∧ (classify_service none "1X99").alert_worthy = true
    ∧ (classify_service none "1X99").special_types = ["royal_train"]
    ∧ (classify_service none "3H07").special_types = ["rhtt"]
    ∧ (classify_service none "3H07").service_type = "infrastructure"
    ∧ (classify_service (some { CIF_train_category := "XX" }) "1F42").service_type
        = "express_passenger"
    ∧ (classify_service (some { CIF_train_category := "XX" }) "1F42").is_passenger = true
    ∧ (classify_service none "6M94").service_type = "freight"
    ∧ (classify_service none "6M94").service_category = "freight_unclassified"
    ∧ (classify_service none "6M94").is_freight = true
    ∧ (classify_service none "6M94").alert_worthy = true
    ∧ (classify_service none "9Z99").service_type = "unknown"
    ∧ (classify_service none "9Z99").description = "Train 9Z99" := by
  decide

/-- C9: the pullman tag is appended twice when both a location identity
and the train class contain a luxury keyword — the special-types list
is not duplicate-free, contradicting the claimed set behaviour. -/
theorem c9_duplicate_pullman_tag :
    (classify_service (some pullmanSched) "5A11").special_types = ["pullman", "pullman"]
    ∧ ¬ (classify_service (some pullmanSched) "5A11").special_types.Nodup := by
  decide

/-- C2: after create U at headcode 1A11, update U to headcode 2B22 and
delete U, the secondary index still lists the old schedule of uid U
under 1A11 while the primary index is empty — the claimed
index-consistency invariant fails on this reachable state. -/
theorem c2_consistency_violated :
    indicesConsistentB stAfterUpdateDelete = false
    ∧ stAfterUpdateDelete.schedules_by_uid = []
    ∧ lookupA "1A11" stAfterUpdateDelete.schedules_by_headcode = some [schedV1] := by
  decide

/-- C3: on the same create, update, delete sequence for uid U, the
primary lookup of U returns none but the 1A11 list still contains a
schedule whose uid is U, contradicting the delete-then-lookup claim. -/
theorem c3_delete_leaves_dangling_entry :
    getScheduleForUid stAfterUpdateDelete "U" = none
    ∧ lookupA "1A11" stAfterUpdateDelete.schedules_by_headcode = some [schedV1]
    ∧ schedV1.CIF_train_uid = "U" := by
  decide

/-- C1 counterexample: with structured attributes whose operating
characteristics contain R, classifying headcode 1X99 yields the tag
list royal_train followed by rhtt — a tag other than royal_train is
present, so royal_train does not suppress all other tag detection. -/
theorem c1_counterexample :
    (classify_service (some opRSched) "1X99").special_types = ["royal_train", "rhtt"]
    ∧ "rhtt" ∈ (classify_service (some opRSched) "1X99").special_types
    ∧ "rhtt" ≠ "royal_train" := by
  decide

/-- C6 counterexample: after ingesting schedule A (valid 2025-01-01
only) and then schedule B (valid all of 2025) for headcode 1A11 on
2025-01-01, a lookup considered on 2025-06-01 returns A, which is no
longer valid, even though the still-valid B is in the list — the
lookup performs no validity filtering. -/
theorem c6_counterexample :
    getScheduleForHeadcode stHeadcodePair "1A11" = some schedA
    ∧ isScheduleValidToday queryDay schedA = false
    ∧ isScheduleValidToday queryDay schedB = true
    ∧ schedB ∈ getAllSchedulesForHeadcode stHeadcodePair "1A11"
    ∧ schedA ≠ schedB := by
  decide

/-- C10: a message whose payload lacks a train uid is dropped before
the transaction dispatch, whatever the transaction kind (including
Delete): both indices and the schedule counter are untouched and only
the lifetime message counter is incremented. -/
theorem c10_missing_uid_noop (today : YMD) (st : VstpState) (message : VstpMessage)
    (sched : Schedule) (hmsg : message.jsonScheduleV1 = some sched)
    (huid : sched.CIF_train_uid = "") :
    processVstpMessage today st message = { st with message_count := st.message_count + 1 } :=
  processVstpMessage_missing_uid today st message sched hmsg huid

theorem c10_missing_uid_noop_witness :
    processVstpMessage day0 initialState ⟨some { transaction_type := some "Delete" }⟩
      = { initialState with message_count := 1 } :=
  (c10_missing_uid_noop day0 initialState ⟨some { transaction_type := some "Delete" }⟩
    { transaction_type := some "Delete" } rfl rfl).trans (by decide)

theorem scanSpecialTags_eq_find (alert_config : List (String × Bool)) (tags : List String) :
    scanSpecialTags alert_config tags
      = (tags.find? (fun t => (lookupA t alert_config).getD false)).map
          (fun t => "Special service: " ++ t) := by
  induction tags with
  | nil => rfl
  | cons tag rest ih =>
    cases h : (lookupA tag alert_config).getD false with
    | true => simp [scanSpecialTags, List.find?, cfgFlag, h]
    | false => simp [scanSpecialTags, List.find?, cfgFlag, h, ih]

/-- C8: should_alert_for_service agrees everywhere with the alert
decision as the spec words it: no alert on an empty configuration,
otherwise the first special tag whose flag is set fires, then the
freight check, then the charter check, else no alert. -/
theorem c8_alert_decision (classification : ClassificationResult)
    (alert_config : List (String × Bool)) :
    should_alert_for_service classification alert_config
      = shouldAlertSpec classification alert_config := by
  unfold should_alert_for_service shouldAlertSpec
  rw [scanSpecialTags_eq_find]
  cases alert_config with
  | nil => simp
  | cons p rest =>
    simp only [List.isEmpty_cons, Bool.false_eq_true, if_false, reduceCtorEq,
      List.cons_ne_nil, if_neg]
    cases hf : List.find? (fun t => (lookupA t (p :: rest)).getD false)
        classification.special_types with
    | none => simp [hf, cfgFlag]
    | some tag => simp [hf, cfgFlag]

theorem detect_special_services_royal (vstp_data : Option Schedule) (headcode : String)
    (h : royal_train_headcode_match headcode = true) :
    detect_special_services vstp_data headcode = ["royal_train"] := by
  simp [detect_special_services, h]

theorem applyCategoryTypes_of_ne (d : Schedule) (r : ClassificationResult)
    (h : r.service_type ≠ "unknown") : applyCategoryTypes d r = r := by
  unfold applyCategoryTypes
  cases hc : lookupA d.CIF_train_category CATEGORY_TYPES with
  | none => rfl
  | some s => simp [h]

theorem applyFreightCategories_of_ne (d : Schedule) (r : ClassificationResult)
    (h : r.service_type ≠ "unknown") : applyFreightCategories d r = r := by
  unfold applyFreightCategories
  cases hc : lookupA d.CIF_train_category FREIGHT_CATEGORIES with
  | none => rfl
  | some s => simp [h]

/-- C1 (amended): for a headcode matching the royal pattern the
primary type is always royal_train and detection short-circuits, but
the later structured-attributes stage of classify_service still appends
rhtt when the operating-characteristics string contains R: the tag
list is exactly royal_train alone, or royal_train followed by rhtt in
that one case; no other tag ever appears. -/
theorem c1_royal_exclusive (vstp_data : Option Schedule) (headcode : String)
    (hmatch : royal_train_headcode_match headcode = true) :
    classify_service vstp_data headcode
      = { service_type := "royal_train", service_category := "royal_train",
          description := "Royal Train", is_freight := false, is_passenger := false,
          is_special := true,
          special_types := "royal_train"
            :: (if operating_chars_have_R vstp_data then ["rhtt"] else []),
          alert_worthy := true } := by
  unfold classify_service
  rw [detect_special_services_royal vstp_data headcode hmatch]
  have hA : applySpecialTypes ["royal_train"]
      { service_type := "unknown", service_category := "unknown",
        description := "Unknown service", is_freight := false, is_passenger := false,
        is_special := false, special_types := [], alert_worthy := false }
      = { service_type := "royal_train", service_category := "royal_train",
          description := "Royal Train", is_freight := false, is_passenger := false,
          is_special := true, special_types := ["royal_train"], alert_worthy := true } := by
    decide
  rw [hA]
  cases vstp_data with
  | none => simp [operating_chars_have_R]
  | some d =>
    by_cases hR : strHasSub d.operating_characteristics "R" = true
    · simp [applyOperRhtt, hR, applyCategoryTypes_of_ne, applyFreightCategories_of_ne,
        operating_chars_have_R]
    · simp [applyOperRhtt, hR, applyCategoryTypes_of_ne, applyFreightCategories_of_ne,
        operating_chars_have_R]

theorem c1_royal_exclusive_witness :
    classify_service (some opRSched) "1X99"
      = { service_type := "royal_train", service_category := "royal_train",
          description := "Royal Train", is_freight := false, is_passenger := false,
          is_special := true, special_types := ["royal_train", "rhtt"],
          alert_worthy := true } :=
  (c1_royal_exclusive (some opRSched) "1X99" (by decide)).trans (by decide)

/-- C6 (amended): get_schedule_for_headcode returns the head of the
list kept for that headcode — the earliest-appended surviving entry —
with no validity filtering at query time, or none when the list is
absent; storing a valid schedule strips its stale copy from each of
its headcode lists and appends the fresh schedule at the end, so the
head is the first-inserted entry still present. -/
theorem c6_headcode_lookup_amended :
    (∀ st hc, getScheduleForHeadcode st hc = (getAllSchedulesForHeadcode st hc).head?)
    ∧ (∀ today st sched hc, isScheduleValidToday today sched = true →
        hc ∈ extractHeadcodes sched →
        getAllSchedulesForHeadcode (storeSchedule today st sched) hc
          = ((getAllSchedulesForHeadcode st hc).filter
              (fun s => s.CIF_train_uid != sched.CIF_train_uid)) ++ [sched]) := by
  constructor
  · intro st hc
    unfold getScheduleForHeadcode getAllSchedulesForHeadcode
    cases h : (lookupA hc st.schedules_by_headcode).getD [] with
    | nil => simp
    | cons a t => simp
  · intro today st sched hc hval hmem
    have hnd : (extractHeadcodes sched).Nodup := by
      unfold extractHeadcodes
      exact List.nodup_dedup _
    unfold getAllSchedulesForHeadcode
    rw [storeSchedule_byHeadcode, hval]
    simp only [if_true]
    rw [lookupA_storeHeadcodes_mem sched.CIF_train_uid sched hc (extractHeadcodes sched)
      st.schedules_by_headcode hnd hmem]
    simp

theorem c6_headcode_lookup_witness :
    getAllSchedulesForHeadcode (storeSchedule day0 initialState schedB) "1A11" = [schedB]
    ∧ getScheduleForHeadcode (storeSchedule day0 initialState schedB) "1A11" = some schedB := by
  have h2 := c6_headcode_lookup_amended.2 day0 initialState schedB "1A11" (by decide) (by decide)
  have h1 := c6_headcode_lookup_amended.1 (storeSchedule day0 initialState schedB) "1A11"
  refine ⟨?_, ?_⟩
  · rw [h2]
    decide
  · rw [h1, h2]
    decide

/-- C4: ingesting the same create or update payload twice in a row
leaves both indices exactly as after one ingest, and when the payload
is actually stored its uid occurs exactly once in the list of each of
its headcodes. -/
theorem c4_store_idempotent (today : YMD) (st : VstpState) (sched : Schedule)
    (htt : sched.transaction_type.getD "Create" = "Create"
        ∨ sched.transaction_type.getD "Create" = "Update") :
    (processVstpMessage today (processVstpMessage today st ⟨some sched⟩)
        ⟨some sched⟩).schedules_by_uid
      = (processVstpMessage today st ⟨some sched⟩).schedules_by_uid
    ∧ (processVstpMessage today (processVstpMessage today st ⟨some sched⟩)
        ⟨some sched⟩).schedules_by_headcode
      = (processVstpMessage today st ⟨some sched⟩).schedules_by_headcode
    ∧ (sched.CIF_train_uid ≠ "" → isScheduleValidToday today sched = true →
        ∀ hc ∈ extractHeadcodes sched,
          (((lookupA hc (processVstpMessage today (processVstpMessage today st ⟨some sched⟩)
              ⟨some sched⟩).schedules_by_headcode).getD []).filter
                (fun s => s.CIF_train_uid == sched.CIF_train_uid)).length = 1) := by
  by_cases huid : sched.CIF_train_uid = ""
  · rw [processVstpMessage_missing_uid today st ⟨some sched⟩ sched rfl huid,
        processVstpMessage_missing_uid today _ ⟨some sched⟩ sched rfl huid]
    exact ⟨rfl, rfl, fun h => absurd huid h⟩
  · rw [processVstpMessage_createUpdate today st sched huid htt,
        processVstpMessage_createUpdate today _ sched huid htt]
    have hnd : (extractHeadcodes sched).Nodup := by
      unfold extractHeadcodes
      exact List.nodup_dedup _
    by_cases hval : isScheduleValidToday today sched = true
    · have hU : (storeSchedule today
            { storeSchedule today { st with message_count := st.message_count + 1 } sched with
              message_count := (storeSchedule today { st with
                message_count := st.message_count + 1 } sched).message_count + 1 }
            sched).schedules_by_uid
          = (storeSchedule today { st with message_count := st.message_count + 1 }
              sched).schedules_by_uid := by
        simp [storeSchedule_byUid, hval, upsertA_upsertA]
      have hH : (storeSchedule today
            { storeSchedule today { st with message_count := st.message_count + 1 } sched with
              message_count := (storeSchedule today { st with
                message_count := st.message_count + 1 } sched).message_count + 1 }
            sched).schedules_by_headcode
          = (storeSchedule today { st with message_count := st.message_count + 1 }
              sched).schedules_by_headcode := by
        simp only [storeSchedule_byHeadcode, hval, if_true]
        exact storeHeadcodes_idem _ _ rfl _ _ hnd
      refine ⟨hU, hH, ?_⟩
      intro _ _ hc hmem
      rw [hH]
      rw [storeSchedule_byHeadcode, hval]
      simp only [if_true]
      rw [lookupA_storeHeadcodes_mem sched.CIF_train_uid sched hc (extractHeadcodes sched)
        _ hnd hmem]
      simp [List.filter_append, List.filter_filter, bne]
    · simp only [Bool.not_eq_true] at hval
      refine ⟨?_, ?_, fun _ h2 => absurd h2 (by simp [hval])⟩
      · simp [storeSchedule_byUid, hval]
      · simp [storeSchedule_byHeadcode, hval]

theorem c4_store_idempotent_witness :
    (processVstpMessage day0 (processVstpMessage day0 initialState ⟨some schedV1⟩)
        ⟨some schedV1⟩).schedules_by_headcode
      = (processVstpMessage day0 initialState ⟨some schedV1⟩).schedules_by_headcode
    ∧ (((lookupA "1A11" (processVstpMessage day0 (processVstpMessage day0 initialState
          ⟨some schedV1⟩) ⟨some schedV1⟩).schedules_by_headcode).getD []).filter
            (fun s => s.CIF_train_uid == schedV1.CIF_train_uid)).length = 1 :=
  ⟨(c4_store_idempotent day0 initialState schedV1 (Or.inl rfl)).2.1,
   (c4_store_idempotent day0 initialState schedV1 (Or.inl rfl)).2.2 (by decide) (by decide)
     "1A11" (by decide)⟩

/-- C5: for a create or update event, when both validity dates parse
and the window misses today the event changes neither index; when the
window straddles today, or a date is missing, or a date fails to parse
(fail-open), a payload with a uid is stored under that uid. -/
theorem c5_validity_gating (today : YMD) (st : VstpState) (sched : Schedule) :
    ((sched.transaction_type.getD "Create" = "Create"
        ∨ sched.transaction_type.getD "Create" = "Update") →
      ∀ sd ed, parseDate sched.schedule_start_date = some sd →
        parseDate sched.schedule_end_date = some ed →
        (YMD.le sd today = false ∨ YMD.le today ed = false) →
        (processVstpMessage today st ⟨some sched⟩).schedules_by_uid = st.schedules_by_uid
        ∧ (processVstpMessage today st ⟨some sched⟩).schedules_by_headcode
            = st.schedules_by_headcode)
    ∧ ((sched.transaction_type.getD "Create" = "Create"
        ∨ sched.transaction_type.getD "Create" = "Update") →
      sched.CIF_train_uid ≠ "" →
      (sched.schedule_start_date = "" ∨ sched.schedule_end_date = ""
        ∨ parseDate sched.schedule_start_date = none
        ∨ parseDate sched.schedule_end_date = none
        ∨ (∃ sd ed, parseDate sched.schedule_start_date = some sd
            ∧ parseDate sched.schedule_end_date = some ed
            ∧ YMD.le sd today = true ∧ YMD.le today ed = true)) →
      lookupA sched.CIF_train_uid
          (processVstpMessage today st ⟨some sched⟩).schedules_by_uid = some sched) := by
  constructor
  · intro htt sd ed hps hpe hlt
    have hs : sched.schedule_start_date ≠ "" := by
      intro e
      rw [e, show parseDate "" = none from rfl] at hps
      cases hps
    have he : sched.schedule_end_date ≠ "" := by
      intro e
      rw [e, show parseDate "" = none from rfl] at hpe
      cases hpe
    have hval : isScheduleValidToday today sched = false := by
      unfold isScheduleValidToday
      rw [if_neg (not_or.mpr ⟨hs, he⟩), hps, hpe]
      rcases hlt with h | h <;> simp [h]
    by_cases huid : sched.CIF_train_uid = ""
    · rw [processVstpMessage_missing_uid today st ⟨some sched⟩ sched rfl huid]
      exact ⟨rfl, rfl⟩
    · rw [processVstpMessage_createUpdate today st sched huid htt]
      constructor
      · simp [storeSchedule_byUid, hval]
      · simp [storeSchedule_byHeadcode, hval]
  · intro htt huid hcond
    have hval : isScheduleValidToday today sched = true := by
      unfold isScheduleValidToday
      rcases hcond with h | h | h | h | ⟨sd, ed, hps, hpe, h1, h2⟩
      · simp [h]
      · simp [h]
      · by_cases h1 : sched.schedule_start_date = ""
        · simp [h1]
        · by_cases h2 : sched.schedule_end_date = ""
          · simp [h2]
          · rw [if_neg (not_or.mpr ⟨h1, h2⟩), h]
      · by_cases h1 : sched.schedule_start_date = ""
        · simp [h1]
        · by_cases h2 : sched.schedule_end_date = ""
          · simp [h2]
          · rw [if_neg (not_or.mpr ⟨h1, h2⟩), h]
            cases hX : parseDate sched.schedule_start_date <;> simp
      · have hs : sched.schedule_start_date ≠ "" := by
          intro e
          rw [e, show parseDate "" = none from rfl] at hps
          cases hps
        have he : sched.schedule_end_date ≠ "" := by
          intro e
          rw [e, show parseDate "" = none from rfl] at hpe
          cases hpe
        rw [if_neg (not_or.mpr ⟨hs, he⟩), hps, hpe]
        simp [h1, h2]
    rw [processVstpMessage_createUpdate today st sched huid htt, storeSchedule_byUid, hval]
    simp [lookupA_upsertA_self]

theorem c5_validity_gating_witness :
    (processVstpMessage witnessDay initialState ⟨some futureSched⟩).schedules_by_uid = []
    ∧ lookupA "V" (processVstpMessage witnessDay initialState
        ⟨some straddleSched⟩).schedules_by_uid = some straddleSched := by
  constructor
  · have h := (c5_validity_gating witnessDay initialState futureSched).1 (Or.inl rfl)
      ⟨2026, 1, 1⟩ ⟨2026, 12, 31⟩ (by decide) (by decide) (Or.inl (by decide))
    exact h.1.trans rfl
  · exact (c5_validity_gating witnessDay initialState straddleSched).2 (Or.inl rfl)
      (by decide)
      (Or.inr (Or.inr (Or.inr (Or.inr
        ⟨⟨2025, 1, 1⟩, ⟨2025, 12, 31⟩, by decide, by decide, by decide, by decide⟩))))
